import Mathlib

/-!
Shallow embedding of the 3D mesh platform's scene state store
(`src/App.jsx`) and procedural lighting system (`src/lightingSystem.jsx`).

JavaScript numbers are modelled as rationals (`ℚ`); JS object fields that
may be `undefined`/`null` are modelled as `Option`; the JS `x || d`
fallback idiom is modelled by explicit helpers that treat `0` and `""`
as falsy (arrays are always truthy in JS, so array-valued fields use
plain `Option.getD`).
-/

namespace MeshPlatform

/-- A library entry as created by `handleFileChange` in `App.jsx`:
`{ name: file.name, url: dataURL }`. -/
structure LibraryAsset where
  name : String
  url : String
deriving Repr, DecidableEq

/-- A placed scene item as created by `handleAddItemToScene` in `App.jsx`:
the library asset's fields plus an id and a transform. -/
structure SceneItem where
  id : String
  name : String
  url : String
  position : ℚ × ℚ × ℚ
  rotation : ℚ × ℚ × ℚ
  scale : ℚ × ℚ × ℚ
deriving Repr, DecidableEq

/-- Room bounds as produced by `calculateRoomBounds` in
`lightingSystem.jsx`. -/
structure RoomBounds where
  minX : ℚ
  maxX : ℚ
  minY : ℚ
  maxY : ℚ
  minZ : ℚ
  maxZ : ℚ
  centerX : ℚ
  centerY : ℚ
  centerZ : ℚ
deriving Repr, DecidableEq

/-- The zustand store state from `App.jsx` (`useStore`): the data fields,
without the setter closures. -/
structure Store where
  items : List SceneItem
  library : List LibraryAsset
  environment : String
  roomLightingPreset : String
  furnitureLightingPreset : String
  roomBounds : Option RoomBounds
  roomLightIntensity : ℚ
  furnitureLightIntensity : ℚ
  roomMaterialBrightness : ℚ
  selectedItem : Option String
  transformMode : String
deriving Repr, DecidableEq

/-- A parsed scene document (`sceneData`) as consumed by `loadScene`.
Every field may be absent (`none`), as with a JSON object missing keys. -/
structure SceneData where
  items : Option (List SceneItem)
  library : Option (List LibraryAsset)
  environment : Option String
  roomLightingPreset : Option String
  furnitureLightingPreset : Option String
  roomLightIntensity : Option ℚ
  furnitureLightIntensity : Option ℚ
  roomMaterialBrightness : Option ℚ
deriving Repr, DecidableEq

/-- JS `s || d` for string-valued fields: an absent field or the empty
string (both falsy in JS) fall back to the default. -/
def jsOrStr (v : Option String) (d : String) : String :=
  match v with
  | none => d
  | some s => if s = "" then d else s

/-- JS `x || d` for number-valued fields: an absent field or `0` (both
falsy in JS) fall back to the default. -/
def jsOrNum (v : Option ℚ) (d : ℚ) : ℚ :=
  match v with
  | none => d
  | some x => if x = 0 then d else x

/-- `addLibraryItem` store action (`App.jsx`): appends unconditionally. -/
def addLibraryItem (newItem : LibraryAsset) (s : Store) : Store :=
  { s with library := s.library ++ [newItem] }

/-- `removeLibraryItem(url)` store action (`App.jsx`): filters the asset
out of the library and filters every scene item with that url out of
`items`. It does not touch `selectedItem`. -/
def removeLibraryItem (url : String) (s : Store) : Store :=
  { s with
    library := s.library.filter (fun item => item.url ≠ url),
    items := s.items.filter (fun item => item.url ≠ url) }

/-- `addItem` store action (`App.jsx`): appends a scene item. -/
def addItem (item : SceneItem) (s : Store) : Store :=
  { s with items := s.items ++ [item] }

/-- `deleteItem(id)` store action (`App.jsx`): filters the item out of
`items` and sets `selectedItem` to `null` unconditionally. -/
def deleteItem (id : String) (s : Store) : Store :=
  { s with
    items := s.items.filter (fun item => item.id ≠ id),
    selectedItem := none }

/-- `setSelectedItem` store action (`App.jsx`). -/
def setSelectedItem (id : Option String) (s : Store) : Store :=
  { s with selectedItem := id }

/-- `loadScene(sceneData)` store action (`App.jsx`): full replace of the
persisted fields, with JS `||` fallbacks to fixed defaults, and the
selection cleared. -/
def loadScene (sceneData : SceneData) (s : Store) : Store :=
  { s with
    items := sceneData.items.getD [],
    library := sceneData.library.getD [],
    environment := jsOrStr sceneData.environment "studio",
    roomLightingPreset := jsOrStr sceneData.roomLightingPreset "warm-evening",
    furnitureLightingPreset := jsOrStr sceneData.furnitureLightingPreset "default",
    roomLightIntensity := jsOrNum sceneData.roomLightIntensity 1,
    furnitureLightIntensity := jsOrNum sceneData.furnitureLightIntensity 1,
    roomMaterialBrightness := jsOrNum sceneData.roomMaterialBrightness 1,
    selectedItem := none }

/-- The full-save projection built by `handleSave` (`App.jsx`): the
`sceneData` object it serializes, with every persisted field present. -/
def handleSave (s : Store) : SceneData :=
  { library := some s.library,
    items := some s.items,
    environment := some s.environment,
    roomLightingPreset := some s.roomLightingPreset,
    furnitureLightingPreset := some s.furnitureLightingPreset,
    roomLightIntensity := some s.roomLightIntensity,
    furnitureLightIntensity := some s.furnitureLightIntensity,
    roomMaterialBrightness := some s.roomMaterialBrightness }

/-- The library-add path of `handleFileChange` (`App.jsx`): given the
selected file's name and the data URL the reader produced, adds the asset
unless the extension is wrong or the name (case-sensitively) already
occurs in the library, in which case the store is left unchanged. -/
def handleFileChange (fileName url : String) (s : Store) : Store :=
  if fileName.endsWith ".glb" then
    if s.library.any (fun item => item.name = fileName) then s
    else addLibraryItem { name := fileName, url := url } s
  else s

/-! ### Material brightness adjuster (`FurnitureModel` effect, `App.jsx`) -/

/-- An RGB color with rational channels (a `THREE.Color`). -/
structure Color where
  r : ℚ
  g : ℚ
  b : ℚ
deriving Repr, DecidableEq

/-- `material.userData` as used by the brightness adjuster: the captured
baseline, all absent before first capture (`originalColor` doubles as the
"already captured" flag, exactly as in the JS truthiness test). -/
structure MaterialUserData where
  originalColor : Option Color
  originalEmissive : Option Color
  originalEmissiveIntensity : ℚ
deriving Repr, DecidableEq

/-- The slice of a THREE material the adjuster reads and writes.
`emissive` is `none` for materials without an emissive term (the JS code
guards on `child.material.emissive`). -/
structure Material where
  color : Color
  emissive : Option Color
  emissiveIntensity : ℚ
  userData : MaterialUserData
deriving Repr, DecidableEq

/-- Baseline capture step of the adjuster (`App.jsx` lines 161-165):
runs only when `userData.originalColor` is not yet set. The JS
`emissiveIntensity || 0` coercion is the identity on rationals. -/
def captureBaseline (m : Material) : MaterialUserData :=
  match m.userData.originalColor with
  | none =>
    { originalColor := some m.color,
      originalEmissive := m.emissive,
      originalEmissiveIntensity := m.emissiveIntensity }
  | some _ => m.userData

/-- The per-material brightness adjustment from the `FurnitureModel`
effect (`App.jsx` lines 159-185): capture the baseline once, clamp each
color channel at `min(original * brightness, 1)`, and — when the material
has an emissive term — restore the emissive color from the baseline and
set `emissiveIntensity = originalEmissiveIntensity + (brightness-1)*0.5`. -/
def applyBrightness (brightness : ℚ) (m : Material) : Material :=
  let ud := captureBaseline m
  let oc := ud.originalColor.getD m.color
  let newColor : Color :=
    { r := min (oc.r * brightness) 1,
      g := min (oc.g * brightness) 1,
      b := min (oc.b * brightness) 1 }
  match m.emissive with
  | none => { m with color := newColor, userData := ud }
  | some e =>
    { m with
      color := newColor,
      emissive := some (ud.originalEmissive.getD e),
      emissiveIntensity := ud.originalEmissiveIntensity + (brightness - 1) * (1/2),
      userData := ud }

/-! ### Lighting preset resolvers (`lightingSystem.jsx`) -/

/-- Ambient light entry of a room/furniture config. -/
structure AmbientCfg where
  color : String
  intensity : ℚ
deriving Repr, DecidableEq

/-- Hemisphere light entry of a room config. -/
structure HemisphereCfg where
  skyColor : String
  groundColor : String
  intensity : ℚ
  position : ℚ × ℚ × ℚ
deriving Repr, DecidableEq

/-- A point light entry of a room config. -/
structure PointLightCfg where
  position : ℚ × ℚ × ℚ
  color : String
  intensity : ℚ
  distance : ℚ
  decay : ℚ
  castShadow : Bool
deriving Repr, DecidableEq

/-- A room lighting configuration (one entry of the `configs` table in
`getRoomLightingConfig`). -/
structure RoomLightingCfg where
  ambientLight : AmbientCfg
  hemisphereLight : HemisphereCfg
  pointLights : List PointLightCfg
deriving Repr, DecidableEq

/-- `ceilingY` (`lightingSystem.jsx` line 21): `maxY * 0.9`. -/
def ceilingY (rb : RoomBounds) : ℚ := rb.maxY * (9/10)

/-- Corner X toward `maxX` at the 80% blend (`cornerMargin = 0.8`). -/
def cornerXmax (rb : RoomBounds) : ℚ := rb.centerX + (rb.maxX - rb.centerX) * (8/10)

/-- Corner X toward `minX` at the 80% blend. -/
def cornerXmin (rb : RoomBounds) : ℚ := rb.centerX + (rb.minX - rb.centerX) * (8/10)

/-- Corner Z toward `maxZ` at the 80% blend. -/
def cornerZmax (rb : RoomBounds) : ℚ := rb.centerZ + (rb.maxZ - rb.centerZ) * (8/10)

/-- Corner Z toward `minZ` at the 80% blend. -/
def cornerZmin (rb : RoomBounds) : ℚ := rb.centerZ + (rb.minZ - rb.centerZ) * (8/10)

/-- `lightDistance` (`lightingSystem.jsx` lines 35-36):
`max(maxX-minX, maxZ-minZ) * 0.8`. -/
def lightDistance (rb : RoomBounds) : ℚ :=
  max (rb.maxX - rb.minX) (rb.maxZ - rb.minZ) * (8/10)

/-- The `warm-evening` entry of the room config table. -/
def warmEveningCfg (rb : RoomBounds) : RoomLightingCfg :=
  { ambientLight := { color := "#fff5e6", intensity := 3/10 },
    hemisphereLight :=
      { skyColor := "#fff5e6", groundColor := "#8B7355", intensity := 4/10,
        position := (0, ceilingY rb, 0) },
    pointLights :=
      [ { position := (cornerXmax rb, ceilingY rb, cornerZmax rb), color := "#ffdb99",
          intensity := 12/10, distance := lightDistance rb, decay := 2, castShadow := true },
        { position := (cornerXmin rb, ceilingY rb, cornerZmax rb), color := "#ffdb99",
          intensity := 12/10, distance := lightDistance rb, decay := 2, castShadow := true },
        { position := (cornerXmin rb, ceilingY rb, cornerZmin rb), color := "#ffdb99",
          intensity := 12/10, distance := lightDistance rb, decay := 2, castShadow := true },
        { position := (cornerXmax rb, ceilingY rb, cornerZmin rb), color := "#ffdb99",
          intensity := 12/10, distance := lightDistance rb, decay := 2, castShadow := true },
        { position := (rb.centerX, ceilingY rb, rb.centerZ), color := "#ffe4b3",
          intensity := 15/10, distance := lightDistance rb * (12/10), decay := 2,
          castShadow := true } ] }

/-- The `bright-day` entry of the room config table. -/
def brightDayCfg (rb : RoomBounds) : RoomLightingCfg :=
  { ambientLight := { color := "#ffffff", intensity := 6/10 },
    hemisphereLight :=
      { skyColor := "#87CEEB", groundColor := "#f0f0f0", intensity := 7/10,
        position := (0, ceilingY rb, 0) },
    pointLights :=
      [ { position := (cornerXmax rb, ceilingY rb, cornerZmax rb), color := "#ffffff",
          intensity := 18/10, distance := lightDistance rb, decay := 2, castShadow := true },
        { position := (cornerXmin rb, ceilingY rb, cornerZmax rb), color := "#ffffff",
          intensity := 18/10, distance := lightDistance rb, decay := 2, castShadow := true },
        { position := (cornerXmin rb, ceilingY rb, cornerZmin rb), color := "#ffffff",
          intensity := 18/10, distance := lightDistance rb, decay := 2, castShadow := true },
        { position := (cornerXmax rb, ceilingY rb, cornerZmin rb), color := "#ffffff",
          intensity := 18/10, distance := lightDistance rb, decay := 2, castShadow := true },
        { position := (rb.centerX, ceilingY rb, rb.centerZ), color := "#f5f5f5",
          intensity := 22/10, distance := lightDistance rb * (12/10), decay := 2,
          castShadow := true } ] }

/-- The `cozy-night` entry of the room config table: two corner lights
and a lowered center light with reduced-footprint distances. -/
def cozyNightCfg (rb : RoomBounds) : RoomLightingCfg :=
  { ambientLight := { color := "#ffd699", intensity := 15/100 },
    hemisphereLight :=
      { skyColor := "#ffd699", groundColor := "#4a3728", intensity := 2/10,
        position := (0, ceilingY rb, 0) },
    pointLights :=
      [ { position := (cornerXmax rb, ceilingY rb, cornerZmax rb), color := "#ffb366",
          intensity := 8/10, distance := lightDistance rb * (7/10), decay := 2,
          castShadow := true },
        { position := (cornerXmin rb, ceilingY rb, cornerZmin rb), color := "#ffb366",
          intensity := 8/10, distance := lightDistance rb * (7/10), decay := 2,
          castShadow := true },
        { position := (rb.centerX, ceilingY rb - 1/2, rb.centerZ), color := "#ffcc80",
          intensity := 1, distance := lightDistance rb * (6/10), decay := 2,
          castShadow := true } ] }

/-- The `studio-neutral` entry of the room config table. -/
def studioNeutralCfg (rb : RoomBounds) : RoomLightingCfg :=
  { ambientLight := { color := "#ffffff", intensity := 4/10 },
    hemisphereLight :=
      { skyColor := "#ffffff", groundColor := "#cccccc", intensity := 5/10,
        position := (0, ceilingY rb, 0) },
    pointLights :=
      [ { position := (cornerXmax rb, ceilingY rb, cornerZmax rb), color := "#ffffff",
          intensity := 14/10, distance := lightDistance rb, decay := 2, castShadow := true },
        { position := (cornerXmin rb, ceilingY rb, cornerZmax rb), color := "#ffffff",
          intensity := 14/10, distance := lightDistance rb, decay := 2, castShadow := true },
        { position := (cornerXmin rb, ceilingY rb, cornerZmin rb), color := "#ffffff",
          intensity := 14/10, distance := lightDistance rb, decay := 2, castShadow := true },
        { position := (cornerXmax rb, ceilingY rb, cornerZmin rb), color := "#ffffff",
          intensity := 14/10, distance := lightDistance rb, decay := 2, castShadow := true },
        { position := (rb.centerX, ceilingY rb, rb.centerZ), color := "#ffffff",
          intensity := 18/10, distance := lightDistance rb * (12/10), decay := 2,
          castShadow := true } ] }

/-- The `sunset` entry of the room config table. -/
def sunsetCfg (rb : RoomBounds) : RoomLightingCfg :=
  { ambientLight := { color := "#ffcc99", intensity := 25/100 },
    hemisphereLight :=
      { skyColor := "#ff9966", groundColor := "#8B6347", intensity := 35/100,
        position := (0, ceilingY rb, 0) },
    pointLights :=
      [ { position := (cornerXmax rb, ceilingY rb, cornerZmax rb), color := "#ff9966",
          intensity := 1, distance := lightDistance rb, decay := 2, castShadow := true },
        { position := (cornerXmin rb, ceilingY rb, cornerZmax rb), color := "#ffaa77",
          intensity := 1, distance := lightDistance rb, decay := 2, castShadow := true },
        { position := (cornerXmin rb, ceilingY rb, cornerZmin rb), color := "#ff9966",
          intensity := 1, distance := lightDistance rb, decay := 2, castShadow := true },
        { position := (cornerXmax rb, ceilingY rb, cornerZmin rb), color := "#ffaa77",
          intensity := 1, distance := lightDistance rb, decay := 2, castShadow := true },
        { position := (rb.centerX, ceilingY rb, rb.centerZ), color := "#ffbb88",
          intensity := 13/10, distance := lightDistance rb * (12/10), decay := 2,
          castShadow := true } ] }

/-- `getRoomLightingConfig(preset, roomBounds)` (`lightingSystem.jsx`):
`null` when bounds are absent; otherwise look the preset up in the table
(the `off` key maps to `null`, an unknown key falls through the
`|| null` fallback; both are modelled as the final `none` branch). -/
def getRoomLightingConfig (preset : String) (roomBounds : Option RoomBounds) :
    Option RoomLightingCfg :=
  match roomBounds with
  | none => none
  | some rb =>
    if preset = "warm-evening" then some (warmEveningCfg rb)
    else if preset = "bright-day" then some (brightDayCfg rb)
    else if preset = "cozy-night" then some (cozyNightCfg rb)
    else if preset = "studio-neutral" then some (studioNeutralCfg rb)
    else if preset = "sunset" then some (sunsetCfg rb)
    else none

/-- Directional light entry of a furniture config. -/
structure DirectionalCfg where
  color : String
  position : ℚ × ℚ × ℚ
  intensity : ℚ
  castShadow : Bool
  shadowMapSize : ℚ × ℚ
deriving Repr, DecidableEq

/-- A furniture lighting configuration (one entry of the `configs` table
in `getFurnitureLightingConfig`). -/
structure FurnitureLightingCfg where
  ambientLight : AmbientCfg
  directionalLight : DirectionalCfg
deriving Repr, DecidableEq

/-- The `default` entry of the furniture config table. -/
def furnitureDefaultCfg : FurnitureLightingCfg :=
  { ambientLight := { color := "#ffffff", intensity := 1/10 },
    directionalLight :=
      { color := "#fff1e0", position := (5, 10, 7), intensity := 18/10,
        castShadow := true, shadowMapSize := (2048, 2048) } }

/-- The `bright` entry of the furniture config table. -/
def furnitureBrightCfg : FurnitureLightingCfg :=
  { ambientLight := { color := "#ffffff", intensity := 3/10 },
    directionalLight :=
      { color := "#ffffff", position := (5, 10, 7), intensity := 25/10,
        castShadow := true, shadowMapSize := (2048, 2048) } }

/-- The `soft` entry of the furniture config table. -/
def furnitureSoftCfg : FurnitureLightingCfg :=
  { ambientLight := { color := "#ffffff", intensity := 4/10 },
    directionalLight :=
      { color := "#fff5e6", position := (5, 10, 7), intensity := 12/10,
        castShadow := true, shadowMapSize := (2048, 2048) } }

/-- The `dramatic` entry of the furniture config table. -/
def furnitureDramaticCfg : FurnitureLightingCfg :=
  { ambientLight := { color := "#ffffff", intensity := 5/100 },
    directionalLight :=
      { color := "#ffffff", position := (8, 15, 10), intensity := 3,
        castShadow := true, shadowMapSize := (2048, 2048) } }

/-- `getFurnitureLightingConfig(preset)` (`lightingSystem.jsx`): table
lookup with `configs[preset] || configs['default']` — an unknown key
falls back to the `default` entry, so a config is always returned. -/
def getFurnitureLightingConfig (preset : String) : FurnitureLightingCfg :=
  if preset = "default" then furnitureDefaultCfg
  else if preset = "bright" then furnitureBrightCfg
  else if preset = "soft" then furnitureSoftCfg
  else if preset = "dramatic" then furnitureDramaticCfg
  else furnitureDefaultCfg

/-! ### Claim-level predicates and concrete fixtures -/

/-- The room preset identifiers other than `off` that have a table entry. -/
def roomPresets : List String :=
  ["warm-evening", "bright-day", "cozy-night", "studio-neutral", "sunset"]

/-- The point lights the room resolver produces for a preset and bounds
(empty when the resolver returns `null`). -/
def roomPointLights (preset : String) (rb : RoomBounds) : List PointLightCfg :=
  (getRoomLightingConfig preset (some rb)).elim [] RoomLightingCfg.pointLights

/-- A position is one of the four corner anchor points at ceiling
height: the 80% blend from center toward an X extreme and a Z extreme. -/
def IsCornerPos (rb : RoomBounds) (p : ℚ × ℚ × ℚ) : Prop :=
  (p.1 = cornerXmax rb ∨ p.1 = cornerXmin rb) ∧
  p.2.1 = ceilingY rb ∧
  (p.2.2 = cornerZmax rb ∨ p.2.2 = cornerZmin rb)

/-- A position is the center anchor point, at ceiling height or half a
unit below it (the lowered center light of the intimate preset). -/
def IsCenterPos (rb : RoomBounds) (p : ℚ × ℚ × ℚ) : Prop :=
  p.1 = rb.centerX ∧
  (p.2.1 = ceilingY rb ∨ p.2.1 = ceilingY rb - 1/2) ∧
  p.2.2 = rb.centerZ

/-- The per-light falloff-distance factors the preset table uses. -/
def distanceFactors : List ℚ := [1, 12/10, 7/10, 6/10]

/-- A point light satisfying the claimed room-rig geometry: decay `2`,
falloff distance `lightDistance` times a per-light preset factor, and a
position at one of the corner anchors or the center anchor. -/
def GoodLight (rb : RoomBounds) (l : PointLightCfg) : Prop :=
  l.decay = 2 ∧
  (∃ f ∈ distanceFactors, l.distance = lightDistance rb * f) ∧
  (IsCornerPos rb l.position ∨ IsCenterPos rb l.position)

/-- The scenario bounds from the spec:
`{minX:-5, maxX:5, minY:0, maxY:4, minZ:-5, maxZ:5, center (0,2,0)}`. -/
def rb0 : RoomBounds :=
  { minX := -5, maxX := 5, minY := 0, maxY := 4, minZ := -5, maxZ := 5,
    centerX := 0, centerY := 2, centerZ := 0 }

/-- The first `warm-evening` corner light at the scenario bounds. -/
def warmCornerLight : PointLightCfg :=
  { position := (4, 18/5, 4), color := "#ffdb99", intensity := 12/10,
    distance := 8, decay := 2, castShadow := true }

/-- A store in the initial configuration of `useStore` (`App.jsx`). -/
def baseStore : Store :=
  { items := [], library := [], environment := "studio",
    roomLightingPreset := "warm-evening", furnitureLightingPreset := "default",
    roomBounds := none, roomLightIntensity := 1, furnitureLightIntensity := 1,
    roomMaterialBrightness := 1, selectedItem := none,
    transformMode := "translate" }

/-- A scene document with every field absent: `loadScene({})`. -/
def emptySceneData : SceneData :=
  { items := none, library := none, environment := none,
    roomLightingPreset := none, furnitureLightingPreset := none,
    roomLightIntensity := none, furnitureLightIntensity := none,
    roomMaterialBrightness := none }

/-- A scene item placed from the `chair.glb` asset. -/
def item1 : SceneItem :=
  { id := "item-1", name := "chair.glb", url := "url-a",
    position := (0, 1, 0), rotation := (0, 0, 0), scale := (1, 1, 1) }

/-- A second scene item, placed from a different asset. -/
def item2 : SceneItem :=
  { id := "item-2", name := "lamp.glb", url := "url-b",
    position := (2, 1, 0), rotation := (0, 0, 0), scale := (1, 1, 1) }

/-- A store with two assets, two placed items, and `item-1` selected. -/
def twoItemStore : Store :=
  { baseStore with
    library := [{ name := "chair.glb", url := "url-a" },
                { name := "lamp.glb", url := "url-b" }],
    items := [item1, item2],
    selectedItem := some "item-1" }

/-- A store with a prior state far from every load default. -/
def priorStore : Store :=
  { items := [item2], library := [{ name := "lamp.glb", url := "url-b" }],
    environment := "city", roomLightingPreset := "sunset",
    furnitureLightingPreset := "soft", roomBounds := some rb0,
    roomLightIntensity := 2, furnitureLightIntensity := 3,
    roomMaterialBrightness := 1/2, selectedItem := some "item-2",
    transformMode := "rotate" }

/-! ### Theorems -/

/-- Claim C6: the room resolver falls back to `null`: for every bounds
value `getRoomLightingConfig` returns `none` on the `off` preset and on
every preset id outside the table, and for every preset id it returns
`none` when bounds are absent. The Lean embedding is a total function,
mirroring that the JS function never throws. -/
theorem C6_room_resolver_fallback :
    (∀ b : Option RoomBounds, getRoomLightingConfig "off" b = none) ∧
    (∀ (b : Option RoomBounds) (id : String), id ∉ ("off" :: roomPresets) →
      getRoomLightingConfig id b = none) ∧
    (∀ id : String, getRoomLightingConfig id none = none) := by
  refine ⟨?_, ?_, ?_⟩
  · intro b
    cases b with
    | none => rfl
    | some rb => simp [getRoomLightingConfig]
  · intro b id h
    simp only [roomPresets, List.mem_cons, List.mem_singleton, not_or] at h
    obtain ⟨-, h1, h2, h3, h4, h5⟩ := h
    cases b with
    | none => rfl
    | some rb => simp [getRoomLightingConfig, h1, h2, h3, h4, h5]
  · intro id
    rfl

/-- Witness for C6 at a concrete unknown preset id and concrete bounds. -/
theorem C6_room_resolver_fallback_witness :
    ("lava-lamp" ∉ ("off" :: roomPresets)) ∧
    getRoomLightingConfig "lava-lamp" (some rb0) = none :=
  ⟨by decide, C6_room_resolver_fallback.2.1 (some rb0) "lava-lamp" (by decide)⟩

/-- Claim C7: the furniture resolver is total (its Lean embedding
returns a plain `FurnitureLightingCfg`, never an `Option`), and every
preset id outside the table resolves to exactly the `default` entry. -/
theorem C7_furniture_resolver_total (id : String)
    (h : id ∉ (["default", "bright", "soft", "dramatic"] : List String)) :
    getFurnitureLightingConfig id = getFurnitureLightingConfig "default" := by
  simp only [List.mem_cons, List.mem_singleton, not_or] at h
  obtain ⟨h1, h2, h3, h4⟩ := h
  simp [getFurnitureLightingConfig, h1, h2, h3, h4]

/-- Witness for C7 at a concrete unknown preset id. -/
theorem C7_furniture_resolver_total_witness :
    ("disco" ∉ (["default", "bright", "soft", "dramatic"] : List String)) ∧
    getFurnitureLightingConfig "disco" = getFurnitureLightingConfig "default" :=
  ⟨by decide, C7_furniture_resolver_total "disco" (by decide)⟩

/-- Claim C8: `loadScene` is a full replace with fixed defaults: for
every prior store and document, each field missing from the document
comes out as its documented default (not the prior value). -/
theorem C8_load_defaults (s : Store) (doc : SceneData) :
    (doc.items = none → (loadScene doc s).items = []) ∧
    (doc.library = none → (loadScene doc s).library = []) ∧
    (doc.environment = none → (loadScene doc s).environment = "studio") ∧
    (doc.roomLightingPreset = none →
      (loadScene doc s).roomLightingPreset = "warm-evening") ∧
    (doc.furnitureLightingPreset = none →
      (loadScene doc s).furnitureLightingPreset = "default") ∧
    (doc.roomLightIntensity = none → (loadScene doc s).roomLightIntensity = 1) ∧
    (doc.furnitureLightIntensity = none →
      (loadScene doc s).furnitureLightIntensity = 1) ∧
    (doc.roomMaterialBrightness = none →
      (loadScene doc s).roomMaterialBrightness = 1) := by
  refine ⟨?_, ?_, ?_, ?_, ?_, ?_, ?_, ?_⟩ <;>
    · intro h
      simp [loadScene, jsOrStr, jsOrNum, h]

/-- Witness for C8: loading the empty document over a prior store whose
values all differ from the defaults yields the documented defaults. -/
theorem C8_load_defaults_witness :
    (loadScene emptySceneData priorStore).roomLightingPreset = "warm-evening" ∧
    (loadScene emptySceneData priorStore).roomLightIntensity = 1 ∧
    (loadScene emptySceneData priorStore).items = [] :=
  ⟨(C8_load_defaults priorStore emptySceneData).2.2.2.1 rfl,
   (C8_load_defaults priorStore emptySceneData).2.2.2.2.2.1 rfl,
   (C8_load_defaults priorStore emptySceneData).1 rfl⟩

/-- Counterexample to claim C10 as stated: in `twoItemStore` the
selected item is `item-1`; deleting the *different* item `item-2`
nevertheless clears the selection (the claim says it stays `item-1`). -/
theorem C10_delete_other_item_cex :
    twoItemStore.selectedItem = some "item-1" ∧
    (deleteItem "item-2" twoItemStore).selectedItem = none := by
  constructor
  · rfl
  · rfl

/-- Claim C10 (amended): `deleteItem` removes the item and clears the
selection unconditionally — even when a different item (or nothing) was
selected — and leaves every other store field unchanged. -/
theorem C10_deleteItem_frame (id : String) (s : Store) :
    (deleteItem id s).selectedItem = none ∧
    (deleteItem id s).items = s.items.filter (fun item => item.id ≠ id) ∧
    (deleteItem id s).library = s.library ∧
    (deleteItem id s).environment = s.environment ∧
    (deleteItem id s).roomLightingPreset = s.roomLightingPreset ∧
    (deleteItem id s).furnitureLightingPreset = s.furnitureLightingPreset ∧
    (deleteItem id s).roomBounds = s.roomBounds ∧
    (deleteItem id s).roomLightIntensity = s.roomLightIntensity ∧
    (deleteItem id s).furnitureLightIntensity = s.furnitureLightIntensity ∧
    (deleteItem id s).roomMaterialBrightness = s.roomMaterialBrightness ∧
    (deleteItem id s).transformMode = s.transformMode :=
  ⟨rfl, rfl, rfl, rfl, rfl, rfl, rfl, rfl, rfl, rfl, rfl⟩

/-- A store whose only difference from the initial state is a room light
intensity of `0` — reachable, since the room intensity slider's range
starts at `0` (`App.jsx`, the `room-intensity` input). -/
def zeroIntensityStore : Store := { baseStore with roomLightIntensity := 0 }

/-- Counterexample to claim C1 as stated: with `roomLightIntensity = 0`
the saved document holds `0`, but `loadScene`'s JS `|| 1.0` fallback
treats it as missing, so the round trip yields `1` instead of `0`. -/
theorem C1_roundtrip_zero_intensity_cex :
    zeroIntensityStore.roomLightIntensity = 0 ∧
    (loadScene (handleSave zeroIntensityStore) zeroIntensityStore).roomLightIntensity = 1 := by
  constructor
  · rfl
  · decide

/-- Claim C1 (amended): the save/load round trip restores library,
items, environment and every lighting knob, provided no saved field is
JavaScript-falsy (non-empty environment and preset strings, nonzero
intensities and brightness); a falsy field is replaced by its load
default instead. -/
theorem C1_save_load_roundtrip (s : Store)
    (henv : s.environment ≠ "")
    (hrp : s.roomLightingPreset ≠ "")
    (hfp : s.furnitureLightingPreset ≠ "")
    (hri : s.roomLightIntensity ≠ 0)
    (hfi : s.furnitureLightIntensity ≠ 0)
    (hmb : s.roomMaterialBrightness ≠ 0) :
    (loadScene (handleSave s) s).library = s.library ∧
    (loadScene (handleSave s) s).items = s.items ∧
    (loadScene (handleSave s) s).environment = s.environment ∧
    (loadScene (handleSave s) s).roomLightingPreset = s.roomLightingPreset ∧
    (loadScene (handleSave s) s).furnitureLightingPreset = s.furnitureLightingPreset ∧
    (loadScene (handleSave s) s).roomLightIntensity = s.roomLightIntensity ∧
    (loadScene (handleSave s) s).furnitureLightIntensity = s.furnitureLightIntensity ∧
    (loadScene (handleSave s) s).roomMaterialBrightness = s.roomMaterialBrightness := by
  refine ⟨rfl, rfl, ?_, ?_, ?_, ?_, ?_, ?_⟩ <;>
    simp [loadScene, handleSave, jsOrStr, jsOrNum, henv, hrp, hfp, hri, hfi, hmb]

/-- Witness for C1 at the populated `twoItemStore`, whose saved fields
are all truthy. -/
theorem C1_save_load_roundtrip_witness :
    (loadScene (handleSave twoItemStore) twoItemStore).library = twoItemStore.library ∧
    (loadScene (handleSave twoItemStore) twoItemStore).items = twoItemStore.items ∧
    (loadScene (handleSave twoItemStore) twoItemStore).roomLightIntensity =
      twoItemStore.roomLightIntensity :=
  ⟨(C1_save_load_roundtrip twoItemStore (by decide) (by decide) (by decide)
      (by decide) (by decide) (by decide)).1,
   (C1_save_load_roundtrip twoItemStore (by decide) (by decide) (by decide)
      (by decide) (by decide) (by decide)).2.1,
   (C1_save_load_roundtrip twoItemStore (by decide) (by decide) (by decide)
      (by decide) (by decide) (by decide)).2.2.2.2.2.1⟩

/-- Counterexample to claim C2 as stated: in `twoItemStore` the selected
item `item-1` references the asset with url `url-a`; after
`removeLibraryItem "url-a"` the item is gone from `items`, but the
selection is still `item-1`, not `none` — `removeLibraryItem` never
touches `selectedItem`. -/
theorem C2_cascade_selection_cex :
    twoItemStore.selectedItem = some "item-1" ∧
    (∃ it ∈ twoItemStore.items, it.id = "item-1" ∧ it.url = "url-a") ∧
    (removeLibraryItem "url-a" twoItemStore).items.all (fun it => it.id ≠ "item-1") ∧
    (removeLibraryItem "url-a" twoItemStore).selectedItem = some "item-1" := by
  refine ⟨rfl, ?_, ?_, rfl⟩
  · decide
  · decide

/-- Claim C2 (amended): removing a library asset cascades into `items` —
no scene item referencing the removed asset's url remains, and the asset
leaves the library — but the selection field is left unchanged (possibly
dangling on a just-removed item), not cleared. -/
theorem C2_removeLibraryItem_cascade (url : String) (s : Store) :
    (∀ it ∈ (removeLibraryItem url s).items, it.url ≠ url) ∧
    (∀ a ∈ (removeLibraryItem url s).library, a.url ≠ url) ∧
    (removeLibraryItem url s).selectedItem = s.selectedItem := by
  refine ⟨?_, ?_, rfl⟩ <;>
    · intro x hx
      simp only [removeLibraryItem, List.mem_filter, decide_eq_true_eq] at hx
      exact hx.2

/-- Witness for C2: after removing `url-a` from `twoItemStore`, the
surviving item `item2` indeed does not reference `url-a`. -/
theorem C2_removeLibraryItem_cascade_witness :
    item2 ∈ (removeLibraryItem "url-a" twoItemStore).items ∧
    item2.url ≠ "url-a" :=
  ⟨by decide, (C2_removeLibraryItem_cascade "url-a" twoItemStore).1 item2 (by decide)⟩

/-- A store holding one library asset named `chair.glb`. -/
def oneAssetStore : Store :=
  { baseStore with library := [{ name := "chair.glb", url := "url-a" }] }

/-- Counterexample to claim C9 as stated: the store-level
`addLibraryItem` appends unconditionally, so adding a second asset with
the already-present name `chair.glb` changes the library and breaks name
uniqueness. -/
theorem C9_addLibraryItem_duplicate_cex :
    ("chair.glb" ∈ oneAssetStore.library.map LibraryAsset.name) ∧
    (addLibraryItem { name := "chair.glb", url := "url-b" } oneAssetStore).library ≠
      oneAssetStore.library ∧
    ¬ ((addLibraryItem { name := "chair.glb", url := "url-b" } oneAssetStore).library.map
        LibraryAsset.name).Nodup := by
  refine ⟨?_, ?_, ?_⟩ <;> decide

/-- Claim C9 (amended): the case-sensitive duplicate-name check lives in
the import path `handleFileChange`, not in the store op: importing a
file whose name is already in the library leaves the store unchanged,
and the import path preserves name uniqueness of the library. -/
theorem C9_handleFileChange_unique (fileName url : String) (s : Store) :
    ((s.library.any fun item => item.name = fileName) = true →
      handleFileChange fileName url s = s) ∧
    ((s.library.map LibraryAsset.name).Nodup →
      ((handleFileChange fileName url s).library.map LibraryAsset.name).Nodup) := by
  constructor
  · intro h
    simp [handleFileChange, h]
  · intro h
    by_cases hg : fileName.endsWith ".glb"
    · by_cases hd : (s.library.any fun item => item.name = fileName) = true
      · simpa [handleFileChange, hg, hd] using h
      · have hmem : ∀ a ∈ s.library, a.name ≠ fileName := by
          simpa [List.any_eq_true] using hd
        have hstep : (handleFileChange fileName url s).library =
            s.library ++ [{ name := fileName, url := url }] := by
          simp [handleFileChange, hg, hd, addLibraryItem]
        rw [hstep, List.map_append]
        refine List.Nodup.append h (List.nodup_singleton _) ?_
        intro a ha hb
        simp only [List.map_cons, List.map_nil, List.mem_singleton] at hb
        simp only [List.mem_map] at ha
        obtain ⟨asset, hassetmem, rfl⟩ := ha
        exact hmem asset hassetmem hb
    · simpa [handleFileChange, hg] using h

/-- Witness for C9: importing `chair.glb` into a library that already
holds an asset of that name leaves the store unchanged. -/
theorem C9_handleFileChange_unique_witness :
    (oneAssetStore.library.any fun item => item.name = "chair.glb") = true ∧
    handleFileChange "chair.glb" "url-b" oneAssetStore = oneAssetStore :=
  ⟨by decide,
   (C9_handleFileChange_unique "chair.glb" "url-b" oneAssetStore).1 (by decide)⟩

/-- A room material with captured baseline: mid-gray base color, black
emissive, baseline emissive intensity `1`. -/
def grayMaterial : Material :=
  { color := { r := 1/2, g := 1/2, b := 1/2 },
    emissive := some { r := 0, g := 0, b := 0 },
    emissiveIntensity := 1,
    userData :=
      { originalColor := some { r := 1/2, g := 1/2, b := 1/2 },
        originalEmissive := some { r := 0, g := 0, b := 0 },
        originalEmissiveIntensity := 1 } }

/-- A fresh (not yet captured) white room material with zero emissive
intensity. -/
def freshMaterial : Material :=
  { color := { r := 1, g := 1, b := 1 },
    emissive := some { r := 0, g := 0, b := 0 },
    emissiveIntensity := 0,
    userData :=
      { originalColor := none, originalEmissive := none,
        originalEmissiveIntensity := 0 } }

/-- Counterexample to claim C3 as stated: at brightness `1/2` the code
computes `glowIntensity = (brightness - 1) * 0.5` with no clamp at zero,
so `grayMaterial` (baseline emissive intensity `1`) ends at emissive
intensity `3/4`, while the claimed formula
`baseline + max(brightness - 1, 0) * 0.5` gives `1`. -/
theorem C3_glow_formula_cex :
    (applyBrightness (1/2) grayMaterial).emissiveIntensity = 3/4 ∧
    grayMaterial.userData.originalEmissiveIntensity +
      max ((1:ℚ)/2 - 1) 0 * (1/2) = 1 ∧
    ((3:ℚ)/4) ≠ 1 := by
  refine ⟨?_, ?_, ?_⟩ <;> norm_num [applyBrightness, captureBaseline, grayMaterial]

/-- Claim C3 (amended): for a room material with captured baseline, the
brightness adjustment sets each color channel to
`min(baselineChannel * brightness, 1)` (never above `1`), restores the
emissive color to the baseline emissive, and sets the emissive intensity
to `baseline + (brightness - 1) * 0.5` — an *unclamped* glow term, so
the intensity also drops below baseline when brightness is below `1`. -/
theorem C3_brightness_postcondition (b : ℚ) (m : Material) (oc oe e : Color)
    (hc : m.userData.originalColor = some oc)
    (he : m.userData.originalEmissive = some oe)
    (hme : m.emissive = some e) :
    (applyBrightness b m).color =
      { r := min (oc.r * b) 1, g := min (oc.g * b) 1, b := min (oc.b * b) 1 } ∧
    (applyBrightness b m).emissive = some oe ∧
    (applyBrightness b m).emissiveIntensity =
      m.userData.originalEmissiveIntensity + (b - 1) * (1/2) := by
  refine ⟨?_, ?_, ?_⟩ <;> simp [applyBrightness, captureBaseline, hc, he, hme]

/-- Witness for C3 at brightness `2` on `grayMaterial`: channels clamp
at `1` and the glow term adds `1/2`. -/
theorem C3_brightness_postcondition_witness :
    (applyBrightness 2 grayMaterial).color =
      { r := min ((1:ℚ)/2 * 2) 1, g := min ((1:ℚ)/2 * 2) 1,
        b := min ((1:ℚ)/2 * 2) 1 } ∧
    (applyBrightness 2 grayMaterial).emissive = some { r := 0, g := 0, b := 0 } ∧
    (applyBrightness 2 grayMaterial).emissiveIntensity =
      grayMaterial.userData.originalEmissiveIntensity + (2 - 1) * (1/2) :=
  C3_brightness_postcondition 2 grayMaterial
    { r := 1/2, g := 1/2, b := 1/2 } { r := 0, g := 0, b := 0 }
    { r := 0, g := 0, b := 0 } rfl rfl rfl

/-- Helper for C4: applying a second brightness value after a first one
gives exactly what applying the second directly gives — the adjustment
always recomputes from the captured baseline. -/
theorem applyBrightness_comp (b1 b2 : ℚ) (m : Material) :
    applyBrightness b2 (applyBrightness b1 m) = applyBrightness b2 m := by
  obtain ⟨c, em, ei, ⟨oco, oem, oei⟩⟩ := m
  cases oco <;> cases oem <;> cases em <;> rfl

/-- Claim C4: the brightness adjustment is idempotent per value and
drift-free — applying `b` twice equals applying it once, applying `b1`
then `b2` equals applying `b2` directly, and once a baseline is captured
the material's `userData` is never overwritten. -/
theorem C4_brightness_drift_free :
    (∀ (b : ℚ) (m : Material),
      applyBrightness b (applyBrightness b m) = applyBrightness b m) ∧
    (∀ (b1 b2 : ℚ) (m : Material),
      applyBrightness b2 (applyBrightness b1 m) = applyBrightness b2 m) ∧
    (∀ (b : ℚ) (m : Material) (oc : Color), m.userData.originalColor = some oc →
      (applyBrightness b m).userData = m.userData) := by
  refine ⟨fun b m => applyBrightness_comp b b m, applyBrightness_comp, ?_⟩
  intro b m oc h
  obtain ⟨c, em, ei, ⟨oco, oem, oei⟩⟩ := m
  cases em <;> simp_all [applyBrightness, captureBaseline]

/-- Witness for C4 on `freshMaterial` (idempotence at brightness `2`)
and `grayMaterial` (baseline already captured, left untouched). -/
theorem C4_brightness_drift_free_witness :
    applyBrightness 2 (applyBrightness 2 freshMaterial) =
      applyBrightness 2 freshMaterial ∧
    (applyBrightness 2 grayMaterial).userData = grayMaterial.userData :=
  ⟨C4_brightness_drift_free.1 2 freshMaterial,
   C4_brightness_drift_free.2.2 2 grayMaterial
     { r := 1/2, g := 1/2, b := 1/2 } rfl⟩

/-- The room resolver reduces to the `warm-evening` table entry. -/
theorem roomPointLights_warmEvening (rb : RoomBounds) :
    roomPointLights "warm-evening" rb = (warmEveningCfg rb).pointLights := rfl

/-- The room resolver reduces to the `bright-day` table entry. -/
theorem roomPointLights_brightDay (rb : RoomBounds) :
    roomPointLights "bright-day" rb = (brightDayCfg rb).pointLights := rfl

/-- The room resolver reduces to the `cozy-night` table entry. -/
theorem roomPointLights_cozyNight (rb : RoomBounds) :
    roomPointLights "cozy-night" rb = (cozyNightCfg rb).pointLights := rfl

/-- The room resolver reduces to the `studio-neutral` table entry. -/
theorem roomPointLights_studioNeutral (rb : RoomBounds) :
    roomPointLights "studio-neutral" rb = (studioNeutralCfg rb).pointLights := rfl

/-- The room resolver reduces to the `sunset` table entry. -/
theorem roomPointLights_sunset (rb : RoomBounds) :
    roomPointLights "sunset" rb = (sunsetCfg rb).pointLights := rfl

/-- Every `warm-evening` point light has the claimed geometry. -/
theorem goodLight_warmEvening (rb : RoomBounds) :
    ∀ l ∈ (warmEveningCfg rb).pointLights, GoodLight rb l := by
  intro l hl
  simp only [warmEveningCfg, List.mem_cons, List.not_mem_nil, or_false] at hl
  rcases hl with rfl | rfl | rfl | rfl | rfl
  · exact ⟨rfl, ⟨1, by norm_num [distanceFactors], (mul_one _).symm⟩, Or.inl ⟨Or.inl rfl, rfl, Or.inl rfl⟩⟩
  · exact ⟨rfl, ⟨1, by norm_num [distanceFactors], (mul_one _).symm⟩, Or.inl ⟨Or.inr rfl, rfl, Or.inl rfl⟩⟩
  · exact ⟨rfl, ⟨1, by norm_num [distanceFactors], (mul_one _).symm⟩, Or.inl ⟨Or.inr rfl, rfl, Or.inr rfl⟩⟩
  · exact ⟨rfl, ⟨1, by norm_num [distanceFactors], (mul_one _).symm⟩, Or.inl ⟨Or.inl rfl, rfl, Or.inr rfl⟩⟩
  · exact ⟨rfl, ⟨12/10, by norm_num [distanceFactors], rfl⟩, Or.inr ⟨rfl, Or.inl rfl, rfl⟩⟩

/-- Every `bright-day` point light has the claimed geometry. -/
theorem goodLight_brightDay (rb : RoomBounds) :
    ∀ l ∈ (brightDayCfg rb).pointLights, GoodLight rb l := by
  intro l hl
  simp only [brightDayCfg, List.mem_cons, List.not_mem_nil, or_false] at hl
  rcases hl with rfl | rfl | rfl | rfl | rfl
  · exact ⟨rfl, ⟨1, by norm_num [distanceFactors], (mul_one _).symm⟩, Or.inl ⟨Or.inl rfl, rfl, Or.inl rfl⟩⟩
  · exact ⟨rfl, ⟨1, by norm_num [distanceFactors], (mul_one _).symm⟩, Or.inl ⟨Or.inr rfl, rfl, Or.inl rfl⟩⟩
  · exact ⟨rfl, ⟨1, by norm_num [distanceFactors], (mul_one _).symm⟩, Or.inl ⟨Or.inr rfl, rfl, Or.inr rfl⟩⟩
  · exact ⟨rfl, ⟨1, by norm_num [distanceFactors], (mul_one _).symm⟩, Or.inl ⟨Or.inl rfl, rfl, Or.inr rfl⟩⟩
  · exact ⟨rfl, ⟨12/10, by norm_num [distanceFactors], rfl⟩, Or.inr ⟨rfl, Or.inl rfl, rfl⟩⟩

/-- Every `cozy-night` point light has the claimed geometry. -/
theorem goodLight_cozyNight (rb : RoomBounds) :
    ∀ l ∈ (cozyNightCfg rb).pointLights, GoodLight rb l := by
  intro l hl
  simp only [cozyNightCfg, List.mem_cons, List.not_mem_nil, or_false] at hl
  rcases hl with rfl | rfl | rfl
  · exact ⟨rfl, ⟨7/10, by norm_num [distanceFactors], rfl⟩, Or.inl ⟨Or.inl rfl, rfl, Or.inl rfl⟩⟩
  · exact ⟨rfl, ⟨7/10, by norm_num [distanceFactors], rfl⟩, Or.inl ⟨Or.inr rfl, rfl, Or.inr rfl⟩⟩
  · exact ⟨rfl, ⟨6/10, by norm_num [distanceFactors], rfl⟩, Or.inr ⟨rfl, Or.inr rfl, rfl⟩⟩

/-- Every `studio-neutral` point light has the claimed geometry. -/
theorem goodLight_studioNeutral (rb : RoomBounds) :
    ∀ l ∈ (studioNeutralCfg rb).pointLights, GoodLight rb l := by
  intro l hl
  simp only [studioNeutralCfg, List.mem_cons, List.not_mem_nil, or_false] at hl
  rcases hl with rfl | rfl | rfl | rfl | rfl
  · exact ⟨rfl, ⟨1, by norm_num [distanceFactors], (mul_one _).symm⟩, Or.inl ⟨Or.inl rfl, rfl, Or.inl rfl⟩⟩
  · exact ⟨rfl, ⟨1, by norm_num [distanceFactors], (mul_one _).symm⟩, Or.inl ⟨Or.inr rfl, rfl, Or.inl rfl⟩⟩
  · exact ⟨rfl, ⟨1, by norm_num [distanceFactors], (mul_one _).symm⟩, Or.inl ⟨Or.inr rfl, rfl, Or.inr rfl⟩⟩
  · exact ⟨rfl, ⟨1, by norm_num [distanceFactors], (mul_one _).symm⟩, Or.inl ⟨Or.inl rfl, rfl, Or.inr rfl⟩⟩
  · exact ⟨rfl, ⟨12/10, by norm_num [distanceFactors], rfl⟩, Or.inr ⟨rfl, Or.inl rfl, rfl⟩⟩

/-- Every `sunset` point light has the claimed geometry. -/
theorem goodLight_sunset (rb : RoomBounds) :
    ∀ l ∈ (sunsetCfg rb).pointLights, GoodLight rb l := by
  intro l hl
  simp only [sunsetCfg, List.mem_cons, List.not_mem_nil, or_false] at hl
  rcases hl with rfl | rfl | rfl | rfl | rfl
  · exact ⟨rfl, ⟨1, by norm_num [distanceFactors], (mul_one _).symm⟩, Or.inl ⟨Or.inl rfl, rfl, Or.inl rfl⟩⟩
  · exact ⟨rfl, ⟨1, by norm_num [distanceFactors], (mul_one _).symm⟩, Or.inl ⟨Or.inr rfl, rfl, Or.inl rfl⟩⟩
  · exact ⟨rfl, ⟨1, by norm_num [distanceFactors], (mul_one _).symm⟩, Or.inl ⟨Or.inr rfl, rfl, Or.inr rfl⟩⟩
  · exact ⟨rfl, ⟨1, by norm_num [distanceFactors], (mul_one _).symm⟩, Or.inl ⟨Or.inl rfl, rfl, Or.inr rfl⟩⟩
  · exact ⟨rfl, ⟨12/10, by norm_num [distanceFactors], rfl⟩, Or.inr ⟨rfl, Or.inl rfl, rfl⟩⟩

/-- The `warm-evening` center light at the scenario bounds. -/
def warmCenterLight : PointLightCfg :=
  { position := (0, 18/5, 0), color := "#ffe4b3", intensity := 15/10,
    distance := 48/5, decay := 2, castShadow := true }

/-- At the scenario bounds the first `warm-evening` point light is the
concrete corner light at `(4, 3.6, 4)` with falloff distance `8`. -/
theorem warmCornerLight_mem :
    warmCornerLight ∈ roomPointLights "warm-evening" rb0 := by
  rw [roomPointLights_warmEvening]
  have h1 : cornerXmax rb0 = 4 := by norm_num [cornerXmax, rb0]
  have h2 : cornerZmax rb0 = 4 := by norm_num [cornerZmax, rb0]
  have h3 : ceilingY rb0 = 18/5 := by norm_num [ceilingY, rb0]
  have h4 : lightDistance rb0 = 8 := by norm_num [lightDistance, rb0]
  simp [warmEveningCfg, warmCornerLight, h1, h2, h3, h4]

/-- At the scenario bounds the last `warm-evening` point light is the
concrete center light at `(0, 3.6, 0)` with falloff distance `9.6`. -/
theorem warmCenterLight_mem :
    warmCenterLight ∈ roomPointLights "warm-evening" rb0 := by
  rw [roomPointLights_warmEvening]
  have h3 : ceilingY rb0 = 18/5 := by norm_num [ceilingY, rb0]
  have h5 : lightDistance rb0 * (12/10) = 48/5 := by norm_num [lightDistance, rb0]
  have h6 : rb0.centerX = 0 := rfl
  have h7 : rb0.centerZ = 0 := rfl
  simp [warmEveningCfg, warmCenterLight, h3, h5, h6, h7]

/-- Claim C5: for every bounds and every known preset other than `off`,
every point light of the room rig sits at a corner anchor
(`center + (extreme - center) * 0.8` on X and Z, `Y = maxY * 0.9`) or at
the center anchor (`Y` at ceiling height or half a unit below), with
falloff distance `max(maxX-minX, maxZ-minZ) * 0.8` times the preset's
per-light factor and decay `2`; and at the spec's scenario bounds with
`warm-evening`, a corner light sits at `(4, 3.6, 4)` and the center
light at `(0, 3.6, 0)` with falloff distance `9.6`. -/
theorem C5_room_rig_geometry :
    (∀ (rb : RoomBounds) (p : String), p ∈ roomPresets →
      ∀ l ∈ roomPointLights p rb, GoodLight rb l) ∧
    (∃ l ∈ roomPointLights "warm-evening" rb0,
      l.position = (4, 18/5, 4) ∧ l.distance = 8 ∧ l.decay = 2) ∧
    (∃ l ∈ roomPointLights "warm-evening" rb0,
      l.position = (0, 18/5, 0) ∧ l.distance = 48/5 ∧ l.decay = 2) := by
  refine ⟨?_, ?_, ?_⟩
  · intro rb p hp l hl
    simp only [roomPresets, List.mem_cons, List.not_mem_nil, or_false] at hp
    rcases hp with rfl | rfl | rfl | rfl | rfl
    · exact goodLight_warmEvening rb l (roomPointLights_warmEvening rb ▸ hl)
    · exact goodLight_brightDay rb l (roomPointLights_brightDay rb ▸ hl)
    · exact goodLight_cozyNight rb l (roomPointLights_cozyNight rb ▸ hl)
    · exact goodLight_studioNeutral rb l (roomPointLights_studioNeutral rb ▸ hl)
    · exact goodLight_sunset rb l (roomPointLights_sunset rb ▸ hl)
  · exact ⟨warmCornerLight, warmCornerLight_mem, rfl, rfl, rfl⟩
  · exact ⟨warmCenterLight, warmCenterLight_mem, rfl, rfl, rfl⟩

/-- Witness for C5: the concrete `warm-evening` corner light at the
scenario bounds satisfies the claimed geometry. -/
theorem C5_room_rig_geometry_witness :
    ("warm-evening" ∈ roomPresets ∧
      warmCornerLight ∈ roomPointLights "warm-evening" rb0) ∧
    GoodLight rb0 warmCornerLight :=
  ⟨⟨by decide, warmCornerLight_mem⟩,
   C5_room_rig_geometry.1 rb0 "warm-evening" (by decide) warmCornerLight
     warmCornerLight_mem⟩

end MeshPlatform
